import Mathlib

/-!
Verification of the `RequestItem` component
(`src/components/RequestList/RequestItem/index.tsx`).

The component renders one media-request card: a status badge, a season
list for tv requests, and a set of action buttons (retry, delete,
approve, decline, edit, cancel) gated by the request's state and the
caller's permissions.  The definitions below are a shallow embedding of
that component: enumerations mirror `server/constants/media`, the record
types carry exactly the fields the component reads, and each render
function transcribes the corresponding JSX conditional.
-/

namespace RequestItem

/-- `MediaStatus` from `server/constants/media`: the availability state of
a media record (per quality variant). -/
inductive MediaStatus
  | unknown
  | pending
  | processing
  | partiallyAvailable
  | available
  deriving DecidableEq, Repr

/-- `MediaRequestStatus` from `server/constants/media`. -/
inductive MediaRequestStatus
  | pending
  | approved
  | declined
  deriving DecidableEq, Repr

/-- `request.type`: a request targets a movie or a tv show. -/
inductive MediaType
  | movie
  | tv
  deriving DecidableEq, Repr

/-- The permissions the component queries through `hasPermission`. -/
inductive Permission
  | MANAGE_REQUESTS
  | REQUEST_ADVANCED
  | REQUEST_VIEW
  deriving DecidableEq, Repr

/-- The fields of the `Media` entity read by the component: database id,
tmdb id, the per-quality statuses and the per-quality download-activity
lists (only their length is consulted). -/
structure Media where
  id : Nat
  tmdbId : Nat
  status : MediaStatus
  status4k : MediaStatus
  downloadStatusLen : Nat
  downloadStatus4kLen : Nat
  deriving DecidableEq, Repr

/-- A user reference as used in `requestedBy` / `modifiedBy`. -/
structure UserRef where
  id : Nat
  deriving DecidableEq, Repr

/-- One entry of `request.seasons`. -/
structure Season where
  id : Nat
  seasonNumber : Nat
  deriving DecidableEq, Repr

/-- The fields of `MediaRequest` read by the component. -/
structure MediaRequest where
  id : Nat
  status : MediaRequestStatus
  is4k : Bool
  type : MediaType
  media : Media
  seasons : List Season
  requestedBy : UserRef
  modifiedBy : Option UserRef
  deriving DecidableEq, Repr

/-- The caller as seen through the `useUser` hook: `user?.id` (the hook
may expose no user) and the `hasPermission` predicate. -/
structure Caller where
  userId : Option Nat
  hasPermission : Permission → Bool

/-- `requestData.requestedBy.id === user?.id`: in JS, comparing a number
against `undefined` is false, so an absent user never matches. -/
def isRequester (c : Caller) (r : MediaRequest) : Bool :=
  match c.userId with
  | some uid => r.requestedBy.id == uid
  | none => false

/-- `requestData.media[requestData.is4k ? 'status4k' : 'status']`. -/
def selectedMediaStatus (r : MediaRequest) : MediaStatus :=
  if r.is4k then r.media.status4k else r.media.status

/-- Length of
`requestData.media[requestData.is4k ? 'downloadStatus4k' : 'downloadStatus'] ?? []`. -/
def selectedDownloadLen (r : MediaRequest) : Nat :=
  if r.is4k then r.media.downloadStatus4kLen else r.media.downloadStatusLen

/-! ### Action buttons (lines 407-493) -/

/-- A rendered action control; `retry` carries its `disabled` attribute
(`disabled={isRetrying}`). -/
inductive ActionButton
  | retry (disabled : Bool)
  | deleteConfirm
  | approve
  | decline
  | edit
  | cancel
  deriving DecidableEq, Repr

/-- The action column of the card (lines 407-493): each conditional block
of the JSX contributes its buttons in source order.  `isRetrying` is the
local retry-in-progress state. -/
def renderActions (c : Caller) (r : MediaRequest) (isRetrying : Bool) :
    List ActionButton :=
  (if selectedMediaStatus r == MediaStatus.unknown &&
      r.status != MediaRequestStatus.declined &&
      c.hasPermission Permission.MANAGE_REQUESTS then
    [ActionButton.retry isRetrying]
  else []) ++
  (if r.status != MediaRequestStatus.pending &&
      c.hasPermission Permission.MANAGE_REQUESTS then
    [ActionButton.deleteConfirm]
  else []) ++
  (if r.status == MediaRequestStatus.pending &&
      c.hasPermission Permission.MANAGE_REQUESTS then
    [ActionButton.approve, ActionButton.decline]
  else []) ++
  (if r.status == MediaRequestStatus.pending &&
      (c.hasPermission Permission.MANAGE_REQUESTS ||
        (isRequester c r &&
          (r.type == MediaType.tv ||
            c.hasPermission Permission.REQUEST_ADVANCED))) then
    [ActionButton.edit]
  else []) ++
  (if r.status == MediaRequestStatus.pending &&
      !c.hasPermission Permission.MANAGE_REQUESTS &&
      isRequester c r then
    [ActionButton.cancel]
  else [])

/-! ### Network calls and local-state effects -/

/-- An observable effect of an action handler: an HTTP call, a local
record revalidation (`mutate`, with or without an explicit payload), a
list revalidation, a toast notification, or a write to the retry flag. -/
inductive Effect
  | post (url : String)
  | httpDelete (url : String)
  | revalidateRecord (payload : Option MediaRequest)
  | revalidateList
  | toast (message : String)
  | setRetrying (flag : Bool)
  deriving DecidableEq

/-- The i18n id of `messages.failedretry`. -/
def failedRetryMessage : String := "failedretry"

/-- `/api/v1/request/${request.id}/${type}` for `type` approve/decline. -/
def modifyUrl (reqId : Nat) (type : String) : String :=
  "/api/v1/request/" ++ toString reqId ++ "/" ++ type

/-- `modifyRequest` (lines 118-124): POST to the approve/decline endpoint;
the awaited response object is truthy, so on a successful call
`revalidate()` runs; when the call rejects the exception propagates and no
revalidation happens.  `succeeds` is the outcome of the POST. -/
def modifyRequest (reqId : Nat) (type : String) (succeeds : Bool) :
    List Effect :=
  Effect.post (modifyUrl reqId type) ::
    (if succeeds then [Effect.revalidateRecord none] else [])

/-- `deleteRequest` (lines 126-130): DELETE the request then revalidate
the surrounding list. -/
def deleteRequest (reqId : Nat) : List Effect :=
  [Effect.httpDelete ("/api/v1/request/" ++ toString reqId),
   Effect.revalidateList]

/-- `retryRequest` (lines 132-146): set the retry flag, POST to the retry
endpoint; on success (`outcome = some payload`) revalidate the local
record with the response payload, on rejection show the failure toast;
the `finally` block clears the flag on both paths. -/
def retryRequest (reqId : Nat) (outcome : Option MediaRequest) :
    List Effect :=
  Effect.setRetrying true ::
    Effect.post ("/api/v1/request/" ++ toString reqId ++ "/retry") ::
    ((match outcome with
      | some payload => [Effect.revalidateRecord (some payload)]
      | none => [Effect.toast failedRetryMessage]) ++
      [Effect.setRetrying false])

/-- `RequestItemError.deleteRequest` (lines 60-63): DELETE the orphaned
media record; the call is awaited, so `revalidateList()` runs only when
the DELETE succeeds — on rejection the exception propagates and the list
is not revalidated.  `succeeds` is the outcome of the DELETE. -/
def deleteMedia (mediaId : Nat) (succeeds : Bool) : List Effect :=
  Effect.httpDelete ("/api/v1/media/" ++ toString mediaId) ::
    (if succeeds then [Effect.revalidateList] else [])

/-- Number of HTTP POST calls in an effect list. -/
def countPosts (es : List Effect) : Nat :=
  (es.filter (fun e =>
    match e with
    | Effect.post _ => true
    | _ => false)).length

/-- The component-local state the handlers touch: the `isRetrying` flag,
the SWR record for this request, and the toasts shown so far. -/
structure CardState where
  isRetrying : Bool
  record : MediaRequest
  toasts : List String
  deriving DecidableEq

/-- How each effect acts on the local state.  `revalidateRecord none`
refetches from the server, so the locally known record is unchanged by
the handler itself; HTTP calls and list revalidation do not touch this
card's state. -/
def applyEffect (s : CardState) : Effect → CardState
  | Effect.post _ => s
  | Effect.httpDelete _ => s
  | Effect.revalidateRecord none => s
  | Effect.revalidateRecord (some payload) => { s with record := payload }
  | Effect.revalidateList => s
  | Effect.toast m => { s with toasts := s.toasts ++ [m] }
  | Effect.setRetrying b => { s with isRetrying := b }

/-- Run a handler's effect list on the local state. -/
def applyEffects (s : CardState) (es : List Effect) : CardState :=
  es.foldl applyEffect s

/-! ### Status field (lines 275-309) -/

/-- What the status card-field shows: the declined badge, the failed
badge, or the general `StatusBadge` (with the media status, the
in-progress indicator derived from the download-activity list, and the
quality variant). -/
inductive StatusField
  | declinedBadge
  | failedBadge
  | generalBadge (status : MediaStatus) (inProgress : Bool) (is4k : Bool)
  deriving DecidableEq, Repr

/-- The nested conditional of lines 275-309. -/
def statusField (r : MediaRequest) : StatusField :=
  if r.status == MediaRequestStatus.declined then
    StatusField.declinedBadge
  else if selectedMediaStatus r == MediaStatus.unknown then
    StatusField.failedBadge
  else
    StatusField.generalBadge (selectedMediaStatus r)
      (selectedDownloadLen r > 0) r.is4k

/-! ### Title metadata and the season field (lines 240-267) -/

/-- The tv metadata fields the component reads. -/
structure TvDetails where
  name : String
  seasons : List Season
  deriving DecidableEq, Repr

/-- The movie metadata fields the component reads. -/
structure MovieDetails where
  title : String
  deriving DecidableEq, Repr

/-- The SWR payload for the title endpoint: `MovieDetails | TvDetails`,
discriminated by `isMovie` (presence of a `title` field). -/
inductive Title
  | movie (m : MovieDetails)
  | tv (t : TvDetails)
  deriving DecidableEq, Repr

/-- `isMovie` (lines 44-46). -/
def Title.isMovie : Title → Bool
  | Title.movie _ => true
  | Title.tv _ => false

/-- What the season card-field shows: the single "All" badge, or one badge
per requested season number; either carries the `seasonCount` value fed to
the pluralized label. -/
inductive SeasonDisplay
  | allBadge (seasonCount : Nat)
  | seasonBadges (numbers : List Nat) (seasonCount : Nat)
  deriving DecidableEq, Repr

/-- Lines 240-267: the season field renders only for a non-movie title
with a non-empty `request.seasons`; it shows "All" (with `seasonCount`
0) when the requested-season count equals the number of the title's
seasons excluding season number 0, and otherwise one badge per requested
season with `seasonCount` the requested count. -/
def seasonField (title : Title) (request : MediaRequest) :
    Option SeasonDisplay :=
  match title with
  | Title.movie _ => none
  | Title.tv t =>
    if request.seasons.length > 0 then
      some
        (if (t.seasons.filter
              (fun season => season.seasonNumber != 0)).length ==
            request.seasons.length then
          SeasonDisplay.allBadge 0
        else
          SeasonDisplay.seasonBadges
            (request.seasons.map (fun season => season.seasonNumber))
            request.seasons.length)
    else none

/-! ### Top-level render (lines 148-164) and the error card (lines 53-84) -/

/-- The three shapes the component can render: the loading skeleton, the
fallback error card (with the media id passed to `RequestItemError`), or
the full card. -/
inductive Rendered
  | loading
  | errorCard (mediaId : Option Nat)
  | card
  deriving DecidableEq, Repr

/-- Lines 148-164: while neither title data nor an error has arrived,
render the skeleton; if the title is missing (load failed) or the request
record is missing, render `RequestItemError` with
`mediaId = requestData?.media.id`; otherwise the full card. -/
def renderItem (title : Option Title) (error : Bool)
    (requestData : Option MediaRequest) : Rendered :=
  if title.isNone && !error then
    Rendered.loading
  else if title.isNone || requestData.isNone then
    Rendered.errorCard (requestData.map (fun rd => rd.media.id))
  else
    Rendered.card

/-- JS truthiness of the optional `mediaId` prop (`mediaId && ...`):
`undefined` and `0` are falsy. -/
def truthyId : Option Nat → Bool
  | none => false
  | some n => n != 0

/-- Line 70: the error card shows its delete button iff the caller has
`MANAGE_REQUESTS` and `mediaId` is truthy. -/
def errorCardShowsDelete (c : Caller) (mediaId : Option Nat) : Bool :=
  c.hasPermission Permission.MANAGE_REQUESTS && truthyId mediaId

/-! ### Retry overlap model (lines 412-427, 116) -/

/-- Abstract state for the click/retry interaction: the `isRetrying`
flag and the number of retry calls currently in flight. -/
structure RetrySM where
  isRetrying : Bool
  inflight : Nat
  deriving DecidableEq, Repr

/-- Initial state: `useState(false)`, nothing in flight. -/
def retryInit : RetrySM := { isRetrying := false, inflight := 0 }

/-- Events: the user clicks the retry button, or an in-flight retry call
settles (its `finally` block runs). -/
inductive RetryEvent
  | click
  | settle
  deriving DecidableEq, Repr

/-- One step: a click on the button does nothing while the button is
disabled (`disabled={isRetrying}`); an enabled click starts `retryRequest`,
which sets the flag before issuing the call.  When a call settles its
`finally` clears the flag. -/
def retryStep (s : RetrySM) : RetryEvent → RetrySM
  | RetryEvent.click =>
    if s.isRetrying then s
    else { isRetrying := true, inflight := s.inflight + 1 }
  | RetryEvent.settle =>
    if s.isRetrying then
      { isRetrying := false, inflight := s.inflight - 1 }
    else s

/-- Run a sequence of events from the initial state. -/
def retryRun (events : List RetryEvent) : RetrySM :=
  events.foldl retryStep retryInit

/-! ### Concrete fixtures used to instantiate the theorems -/

/-- A media record whose selected quality variant has unknown status. -/
def exMedia : Media :=
  { id := 10, tmdbId := 550, status := MediaStatus.unknown,
    status4k := MediaStatus.unknown, downloadStatusLen := 0,
    downloadStatus4kLen := 0 }

/-- A pending tv request for two seasons, made by user 7. -/
def pendingTvRequest : MediaRequest :=
  { id := 1, status := MediaRequestStatus.pending, is4k := false,
    type := MediaType.tv, media := exMedia,
    seasons := [{ id := 100, seasonNumber := 1 },
                { id := 101, seasonNumber := 2 }],
    requestedBy := { id := 7 }, modifiedBy := none }

/-- The same request as a movie request with no seasons. -/
def pendingMovieRequest : MediaRequest :=
  { pendingTvRequest with type := MediaType.movie, seasons := [] }

/-- An approved request (not pending, not declined). -/
def approvedRequest : MediaRequest :=
  { pendingTvRequest with status := MediaRequestStatus.approved }

/-- A caller holding every permission. -/
def managerCaller : Caller :=
  { userId := some 1, hasPermission := fun _ => true }

/-- The requester of the fixtures (user 7) with no permissions. -/
def requesterCaller : Caller :=
  { userId := some 7, hasPermission := fun _ => false }

/-- An unrelated user with no permissions. -/
def strangerCaller : Caller :=
  { userId := some 99, hasPermission := fun _ => false }

/-- Tv metadata with a specials season and two regular seasons. -/
def exTv : TvDetails :=
  { name := "Example Show",
    seasons := [{ id := 200, seasonNumber := 0 },
                { id := 201, seasonNumber := 1 },
                { id := 202, seasonNumber := 2 }] }

/-- A starting card state. -/
def exState : CardState :=
  { isRetrying := false, record := pendingTvRequest, toasts := [] }

/-! ## Claim theorems -/

/-- C1: the Retry button is rendered (with its current disabled state)
iff the media status of the quality variant selected by `is4k` is
unknown, the request status is not declined, and the caller has the
manage-requests permission. -/
theorem retry_button_visibility (c : Caller) (r : MediaRequest)
    (b : Bool) :
    ActionButton.retry b ∈ renderActions c r b ↔
      (selectedMediaStatus r = MediaStatus.unknown ∧
       r.status ≠ MediaRequestStatus.declined ∧
       c.hasPermission Permission.MANAGE_REQUESTS = true) := by
  simp [renderActions, Bool.and_eq_true, and_assoc]

/-- C1 witness: a manager viewing the approved fixture (selected media
status unknown) sees the Retry button. -/
theorem retry_button_visibility_witness :
    ActionButton.retry false ∈
      renderActions managerCaller approvedRequest false :=
  (retry_button_visibility managerCaller approvedRequest false).mpr
    (by refine ⟨by decide, by decide, rfl⟩)

/-- C2: the Approve and Decline buttons are rendered iff the request is
pending and the caller has the manage-requests permission; invoking
either handler issues exactly one POST, to the approve (resp. decline)
endpoint for the request id, and on a successful call the POST is
followed by a revalidation of the local request record. -/
theorem approve_decline_behavior (c : Caller) (r : MediaRequest)
    (b : Bool) (succeeds : Bool) :
    (ActionButton.approve ∈ renderActions c r b ↔
      (r.status = MediaRequestStatus.pending ∧
       c.hasPermission Permission.MANAGE_REQUESTS = true)) ∧
    (ActionButton.decline ∈ renderActions c r b ↔
      (r.status = MediaRequestStatus.pending ∧
       c.hasPermission Permission.MANAGE_REQUESTS = true)) ∧
    countPosts (modifyRequest r.id "approve" succeeds) = 1 ∧
    countPosts (modifyRequest r.id "decline" succeeds) = 1 ∧
    modifyRequest r.id "approve" true =
      [Effect.post (modifyUrl r.id "approve"),
       Effect.revalidateRecord none] ∧
    modifyRequest r.id "decline" true =
      [Effect.post (modifyUrl r.id "decline"),
       Effect.revalidateRecord none] := by
  refine ⟨?_, ?_, ?_, ?_, rfl, rfl⟩
  · simp [renderActions, Bool.and_eq_true]
  · simp [renderActions, Bool.and_eq_true]
  · cases succeeds <;> rfl
  · cases succeeds <;> rfl

/-- C2 witness: a manager viewing a pending request sees Approve. -/
theorem approve_decline_behavior_witness :
    ActionButton.approve ∈
      renderActions managerCaller pendingTvRequest false :=
  (approve_decline_behavior managerCaller pendingTvRequest false
    true).1.mpr ⟨rfl, rfl⟩

/-- C3: the Edit button is rendered iff the request is pending and the
caller has the manage-requests permission, or is the requester of a tv
request, or is the requester and holds the advanced-request permission;
in particular it shows for the pending tv fixture viewed by its
permissionless requester, and not for the pending movie fixture viewed
by the same caller. -/
theorem edit_button_visibility (c : Caller) (r : MediaRequest)
    (b : Bool) :
    (ActionButton.edit ∈ renderActions c r b ↔
      (r.status = MediaRequestStatus.pending ∧
       (c.hasPermission Permission.MANAGE_REQUESTS = true ∨
        (isRequester c r = true ∧
          (r.type = MediaType.tv ∨
           c.hasPermission Permission.REQUEST_ADVANCED = true))))) ∧
    ActionButton.edit ∈ renderActions requesterCaller pendingTvRequest b ∧
    ActionButton.edit ∉
      renderActions requesterCaller pendingMovieRequest b := by
  refine ⟨?_, by cases b <;> decide, by cases b <;> decide⟩
  simp [renderActions, Bool.and_eq_true, Bool.or_eq_true, and_assoc]

/-- C3 witness: the iff instantiated at the tv fixture and its
requester. -/
theorem edit_button_visibility_witness :
    ActionButton.edit ∈
      renderActions requesterCaller pendingTvRequest false :=
  (edit_button_visibility requesterCaller pendingTvRequest false).1.mpr
    ⟨rfl, Or.inr ⟨rfl, Or.inl rfl⟩⟩

/-- C4: the Delete confirm button is rendered iff the request is not
pending and the caller has the manage-requests permission; the Cancel
confirm button is rendered iff the request is pending, the caller lacks
that permission, and the caller is the requester; the two are never
rendered together. -/
theorem delete_cancel_visibility (c : Caller) (r : MediaRequest)
    (b : Bool) :
    (ActionButton.deleteConfirm ∈ renderActions c r b ↔
      (r.status ≠ MediaRequestStatus.pending ∧
       c.hasPermission Permission.MANAGE_REQUESTS = true)) ∧
    (ActionButton.cancel ∈ renderActions c r b ↔
      (r.status = MediaRequestStatus.pending ∧
       c.hasPermission Permission.MANAGE_REQUESTS = false ∧
       isRequester c r = true)) ∧
    ¬(ActionButton.deleteConfirm ∈ renderActions c r b ∧
      ActionButton.cancel ∈ renderActions c r b) := by
  refine ⟨?_, ?_, ?_⟩
  · simp [renderActions, Bool.and_eq_true]
  · simp [renderActions, Bool.and_eq_true, Bool.not_eq_true', and_assoc]
  · intro ⟨hdel, hcan⟩
    have h1 := (by simp [renderActions, Bool.and_eq_true] at hdel; exact hdel :
      r.status ≠ MediaRequestStatus.pending ∧
        c.hasPermission Permission.MANAGE_REQUESTS = true)
    have h2 := (by
      simp [renderActions, Bool.and_eq_true, Bool.not_eq_true',
        and_assoc] at hcan
      exact hcan :
      r.status = MediaRequestStatus.pending ∧
        c.hasPermission Permission.MANAGE_REQUESTS = false ∧
        isRequester c r = true)
    exact h1.1 h2.1

/-- C4 witness: at the approved fixture viewed by a manager, Delete is
rendered and Cancel is not. -/
theorem delete_cancel_visibility_witness :
    ActionButton.deleteConfirm ∈
      renderActions managerCaller approvedRequest false :=
  (delete_cancel_visibility managerCaller approvedRequest false).1.mpr
    ⟨by decide, rfl⟩

/-- C6: a pending request viewed by a caller who lacks the
manage-requests permission and is not the requester renders no action
buttons at all. -/
theorem no_buttons_for_stranger (c : Caller) (r : MediaRequest)
    (b : Bool) (h1 : r.status = MediaRequestStatus.pending)
    (h2 : c.hasPermission Permission.MANAGE_REQUESTS = false)
    (h3 : isRequester c r = false) :
    renderActions c r b = [] := by
  simp [renderActions, h1, h2, h3]

/-- C6 witness: the pending movie fixture viewed by an unrelated
permissionless user shows no buttons. -/
theorem no_buttons_for_stranger_witness :
    pendingMovieRequest.status = MediaRequestStatus.pending ∧
      strangerCaller.hasPermission Permission.MANAGE_REQUESTS = false ∧
      isRequester strangerCaller pendingMovieRequest = false ∧
      renderActions strangerCaller pendingMovieRequest false = [] :=
  ⟨rfl, rfl, by decide,
    no_buttons_for_stranger strangerCaller pendingMovieRequest false rfl
      rfl (by decide)⟩

/-- C5: the retry handler sets the in-progress flag first, clears it
last on both paths (`finally`); on failure it appends the failure toast
and leaves the record alone; on success it shows no toast and updates
the record to the response payload. -/
theorem retry_finally_semantics (reqId : Nat) (s : CardState)
    (payload : MediaRequest) :
    ((retryRequest reqId (some payload)).head? =
        some (Effect.setRetrying true) ∧
      (retryRequest reqId none).head? = some (Effect.setRetrying true) ∧
      (retryRequest reqId (some payload)).getLast? =
        some (Effect.setRetrying false) ∧
      (retryRequest reqId none).getLast? =
        some (Effect.setRetrying false)) ∧
    ((applyEffects s (retryRequest reqId (some payload))).isRetrying =
        false ∧
      (applyEffects s (retryRequest reqId none)).isRetrying = false) ∧
    ((applyEffects s (retryRequest reqId none)).toasts =
        s.toasts ++ [failedRetryMessage] ∧
      (applyEffects s (retryRequest reqId none)).record = s.record) ∧
    ((applyEffects s (retryRequest reqId (some payload))).toasts =
        s.toasts ∧
      (applyEffects s (retryRequest reqId (some payload))).record =
        payload) :=
  ⟨⟨rfl, rfl, rfl, rfl⟩, ⟨rfl, rfl⟩, ⟨rfl, rfl⟩, ⟨rfl, rfl⟩⟩

/-- C5 witness: the theorem instantiated at the fixtures. -/
theorem retry_finally_semantics_witness :
    (applyEffects exState
        (retryRequest 1 (some approvedRequest))).record =
      approvedRequest :=
  (retry_finally_semantics 1 exState approvedRequest).2.2.2.2

/-- C7: when the title load has failed (or the request record is
absent) the fallback error card is rendered with
`mediaId = requestData?.media.id`; the card's delete action shows iff
the caller has the manage-requests permission and the media id is
present and truthy; invoking it issues a DELETE on the media endpoint
and, when that call succeeds, revalidates the list (on rejection no
revalidation happens). -/
theorem error_card_behavior :
    (∀ rd : Option MediaRequest,
        renderItem none true rd =
          Rendered.errorCard (rd.map (fun r => r.media.id))) ∧
    (∀ (t : Title) (e : Bool),
        renderItem (some t) e none = Rendered.errorCard none) ∧
    (∀ (c : Caller) (mid : Option Nat),
        errorCardShowsDelete c mid = true ↔
          (c.hasPermission Permission.MANAGE_REQUESTS = true ∧
           truthyId mid = true)) ∧
    (∀ mid : Nat,
        deleteMedia mid true =
          [Effect.httpDelete ("/api/v1/media/" ++ toString mid),
           Effect.revalidateList]) ∧
    (∀ mid : Nat,
        deleteMedia mid false =
          [Effect.httpDelete ("/api/v1/media/" ++ toString mid)]) := by
  refine ⟨fun rd => rfl, fun t e => ?_, fun c mid => ?_, fun mid => rfl,
    fun mid => rfl⟩
  · cases e <;> rfl
  · simp [errorCardShowsDelete, Bool.and_eq_true]

/-- C7 witness: the error-card render at a concrete request record. -/
theorem error_card_behavior_witness :
    renderItem none true (some pendingTvRequest) =
      Rendered.errorCard
        ((some pendingTvRequest).map (fun r => r.media.id)) :=
  error_card_behavior.1 (some pendingTvRequest)

/-- Invariant of the click/settle model: the in-flight count is 1 while
the flag is set and 0 otherwise, preserved by every event. -/
lemma retryRun_invariant (events : List RetryEvent) (s : RetrySM)
    (h : s.inflight = if s.isRetrying then 1 else 0) :
    (events.foldl retryStep s).inflight =
      if (events.foldl retryStep s).isRetrying then 1 else 0 := by
  induction events generalizing s with
  | nil => exact h
  | cons e es ih =>
    apply ih
    cases e <;> simp only [retryStep] <;> split_ifs with hb <;>
      simp_all

/-- C8: any rendered Retry button carries `disabled = isRetrying`, and
in the click/settle model — where a click on the disabled button does
nothing — at most one retry call is ever in flight. -/
theorem retry_no_overlap :
    (∀ (c : Caller) (r : MediaRequest) (b d : Bool),
        ActionButton.retry d ∈ renderActions c r b → d = b) ∧
    (∀ events : List RetryEvent, (retryRun events).inflight ≤ 1) := by
  constructor
  · intro c r b d h
    simp [renderActions] at h
    tauto
  · intro events
    have h := retryRun_invariant events retryInit rfl
    rw [retryRun, h]
    split_ifs <;> simp

/-- C8 witness: the disabled-state conclusion at a concrete rendered
button, and the in-flight bound after one click. -/
theorem retry_no_overlap_witness :
    (ActionButton.retry true ∈
        renderActions managerCaller approvedRequest true) ∧
      true = true ∧ (retryRun [RetryEvent.click]).inflight ≤ 1 :=
  ⟨by decide,
    retry_no_overlap.1 managerCaller approvedRequest true true
      (by decide),
    retry_no_overlap.2 [RetryEvent.click]⟩

/-- C9: the status field shows the declined badge exactly for declined
requests; the failed badge exactly when the request is not declined and
the selected variant's media status is unknown; and the general badge
exactly when the request is not declined and that status is not
unknown. -/
theorem status_field_precedence (r : MediaRequest) :
    (statusField r = StatusField.declinedBadge ↔
      r.status = MediaRequestStatus.declined) ∧
    (statusField r = StatusField.failedBadge ↔
      (r.status ≠ MediaRequestStatus.declined ∧
       selectedMediaStatus r = MediaStatus.unknown)) ∧
    (statusField r =
        StatusField.generalBadge (selectedMediaStatus r)
          (decide (selectedDownloadLen r > 0)) r.is4k ↔
      (r.status ≠ MediaRequestStatus.declined ∧
       selectedMediaStatus r ≠ MediaStatus.unknown)) := by
  unfold statusField
  split_ifs with h1 h2 <;> simp_all

/-- C9 witness: the theorem at the approved fixture, whose selected
media status is unknown, showing the failed badge. -/
theorem status_field_precedence_witness :
    statusField approvedRequest = StatusField.failedBadge ↔
      (approvedRequest.status ≠ MediaRequestStatus.declined ∧
       selectedMediaStatus approvedRequest = MediaStatus.unknown) :=
  (status_field_precedence approvedRequest).2.1

/-- C10: for a tv title, the season field shows the single "All" badge
(with displayed season count 0) iff the request's season list is
non-empty and its length equals the number of the title's seasons with
season number other than 0; otherwise it shows one badge per requested
season number with the requested count (which is then non-zero)
displayed. -/
theorem season_field_display (t : TvDetails) (r : MediaRequest)
    (nums : List Nat) (cnt : Nat) :
    (seasonField (Title.tv t) r = some (SeasonDisplay.allBadge cnt) ↔
      (cnt = 0 ∧ 0 < r.seasons.length ∧
       (t.seasons.filter (fun s => s.seasonNumber != 0)).length =
         r.seasons.length)) ∧
    (seasonField (Title.tv t) r =
        some (SeasonDisplay.seasonBadges nums cnt) ↔
      (nums = r.seasons.map (fun s => s.seasonNumber) ∧
       cnt = r.seasons.length ∧ 0 < r.seasons.length ∧
       (t.seasons.filter (fun s => s.seasonNumber != 0)).length ≠
         r.seasons.length)) := by
  simp only [seasonField]
  split_ifs with h1 h2 <;> simp_all <;> aesop

/-- C10 witness: the fixture show has two non-special seasons and the
fixture request asks for both, so the "All" badge shows with count 0. -/
theorem season_field_display_witness :
    seasonField (Title.tv exTv) pendingTvRequest =
        some (SeasonDisplay.allBadge 0) ↔
      ((0 : Nat) = 0 ∧ 0 < pendingTvRequest.seasons.length ∧
       (exTv.seasons.filter (fun s => s.seasonNumber != 0)).length =
         pendingTvRequest.seasons.length) :=
  (season_field_display exTv pendingTvRequest [] 0).1

end RequestItem
